import Mathlib

/-!
Verification development for the currency-converter screen in
`src/A2_Adam_Syed/App.js`.

The testable core of that file is the pair `validateInput` / `handleConvert`
inside `MainScreen`.  We embed them shallowly:

* JavaScript numbers are modelled by `JSNum`: `nan`, the two infinities, and
  exact rationals (we do not model double rounding; all inputs relevant to
  the claims are exactly representable).
* `parseFloat` is modelled after the ECMAScript `parseFloat` algorithm:
  leading (ASCII) whitespace is skipped, an optional sign is read, then
  either the literal `Infinity` or a decimal mantissa with optional fraction
  and optional exponent; trailing characters are ignored; if no numeric
  prefix exists the result is `nan`.
* The regex test `/^[A-Z]{3}$/.test(s)`, `String.prototype.trim` and
  `String.prototype.toUpperCase` (ASCII range) are modelled directly.
* The `fetch` interaction is modelled by a `FetchOutcome` parameter:
  a transport-level rejection, or a response with an HTTP status and a body.
  A body is either a parsed JSON object (its `data` rate table and `message`
  field, the only properties the handler reads) or `nullOrUnparsable`, which
  covers both a body that fails to parse as JSON and the JSON value `null`
  (on the success path both raise inside the `try` and are caught by the
  `catch`; on the error path both make `errorData?.message` undefined).
* The component state written by `handleConvert` (`errorMessage`,
  `convertedAmount`, `exchangeRate`) is a `ConvState`; the handler takes the
  previous state and returns the settled state (it clears all three fields
  first, so the previous state is ignored — which is exactly the point of
  the determinism claim).
-/

/-- ASCII decimal digit, `0`–`9`. -/
def isDigit (c : Char) : Bool := decide (48 ≤ c.toNat ∧ c.toNat ≤ 57)

/-- ASCII whitespace recognised by JS `trim`/`parseFloat`
(space, tab, LF, CR, VT, FF; we model the ASCII range). -/
def isWS (c : Char) : Bool :=
  decide (c.toNat = 32 ∨ c.toNat = 9 ∨ c.toNat = 10 ∨ c.toNat = 13 ∨
          c.toNat = 11 ∨ c.toNat = 12)

/-- Split a character list into its longest digit prefix and the rest. -/
def spanDigits : List Char → List Char × List Char
  | [] => ([], [])
  | c :: cs =>
    if isDigit c then (c :: (spanDigits cs).1, (spanDigits cs).2)
    else ([], c :: cs)

/-- Value of a digit string read in base 10. -/
def digitsToNat (ds : List Char) : ℕ :=
  ds.foldl (fun a c => a * 10 + (c.toNat - 48)) 0

/-- Exact power of ten with an integer exponent. -/
def powTen : ℤ → ℚ
  | Int.ofNat n => (10 : ℚ) ^ n
  | Int.negSucc n => 1 / (10 : ℚ) ^ (n + 1)

/-- Digits of an exponent part (after the sign, if any); an exponent marker
with no digits contributes exponent `0` (as in `parseFloat("1e+") = 1`). -/
def parseExpDigits (neg : Bool) (cs : List Char) : ℤ :=
  let ds := (spanDigits cs).1
  if ds.isEmpty then 0
  else if neg then -(digitsToNat ds : ℤ) else (digitsToNat ds : ℤ)

/-- Optional exponent part `e`/`E`, optional sign, digits. -/
def parseExponentPart : List Char → ℤ
  | [] => 0
  | c :: rest =>
    if c = 'e' ∨ c = 'E' then
      match rest with
      | [] => 0
      | c2 :: rest2 =>
        if c2 = '+' then parseExpDigits false rest2
        else if c2 = '-' then parseExpDigits true rest2
        else parseExpDigits false (c2 :: rest2)
    else 0

/-- The value `m * 10^e`, with the exponent-zero case returned directly (the value is
the same; this keeps integer literals kernel-computable). -/
def applyExp (m : ℚ) : ℤ → ℚ
  | Int.ofNat 0 => m
  | e => m * powTen e

/-- The mantissa `ints.fracs` as an exact rational. -/
def mantissa (ints fracs : List Char) : ℚ :=
  if fracs.isEmpty then (digitsToNat ints : ℚ)
  else (digitsToNat ints : ℚ) + (digitsToNat fracs : ℚ) / (10 : ℚ) ^ fracs.length

/-- Continue after the integer digits `ints`: optional `.fraction`, optional
exponent.  `none` when no digits were found at all. -/
def parseAfterInt (ints : List Char) : List Char → Option ℚ
  | c :: r2 =>
    if c = '.' then
      let fp := spanDigits r2
      if ints.isEmpty && fp.1.isEmpty then none
      else some (applyExp (mantissa ints fp.1) (parseExponentPart fp.2))
    else if ints.isEmpty then none
    else some (applyExp (digitsToNat ints : ℚ) (parseExponentPart (c :: r2)))
  | [] => if ints.isEmpty then none else some (digitsToNat ints : ℚ)

/-- Unsigned decimal literal prefix of a character list. -/
def parseDecimal (cs : List Char) : Option ℚ :=
  parseAfterInt (spanDigits cs).1 (spanDigits cs).2

/-- Optional leading sign; returns (isNegative, rest). -/
def stripSign : List Char → Bool × List Char
  | [] => (false, [])
  | c :: rest =>
    if c = '+' then (false, rest)
    else if c = '-' then (true, rest)
    else (false, c :: rest)

/-- Does `pat` occur literally at the start of `cs`? -/
def matchChars : List Char → List Char → Bool
  | [], _ => true
  | _ :: _, [] => false
  | p :: ps, c :: cs => p == c && matchChars ps cs

/-- Does the list start with the literal `Infinity`? -/
def startsWithInfinity (cs : List Char) : Bool :=
  matchChars ['I', 'n', 'f', 'i', 'n', 'i', 't', 'y'] cs

/-- A JavaScript number as the handler observes it: `NaN`, `±Infinity`, or a
finite value (modelled as an exact rational). -/
inductive JSNum where
  | nan : JSNum
  | posInf : JSNum
  | negInf : JSNum
  | num : ℚ → JSNum
deriving DecidableEq

/-- JS `parseFloat`: skip leading whitespace, optional sign, then `Infinity`
or a decimal literal prefix; trailing characters are ignored; `nan` if no
numeric prefix exists. -/
def parseFloat (s : String) : JSNum :=
  let cs := s.data.dropWhile isWS
  let sn := stripSign cs
  if startsWithInfinity sn.2 then
    if sn.1 then JSNum.negInf else JSNum.posInf
  else
    match parseDecimal sn.2 with
    | none => JSNum.nan
    | some q => JSNum.num (if sn.1 then -q else q)

/-- JS `isNaN` on an already-numeric value. -/
def jsIsNaN : JSNum → Bool
  | JSNum.nan => true
  | _ => false

/-- JS comparison `x <= 0` (false for `NaN`). -/
def jsLeZero : JSNum → Bool
  | JSNum.nan => false
  | JSNum.posInf => false
  | JSNum.negInf => true
  | JSNum.num q => decide (q ≤ 0)

/-- JS truthiness of a number: everything but `0` and `NaN`. -/
def jsTruthy : JSNum → Bool
  | JSNum.nan => false
  | JSNum.posInf => true
  | JSNum.negInf => true
  | JSNum.num q => decide (q ≠ 0)

/-- JS multiplication on `JSNum` (we do not model the sign of zero). -/
def jsMul : JSNum → JSNum → JSNum
  | JSNum.nan, _ => JSNum.nan
  | _, JSNum.nan => JSNum.nan
  | JSNum.posInf, JSNum.posInf => JSNum.posInf
  | JSNum.posInf, JSNum.negInf => JSNum.negInf
  | JSNum.negInf, JSNum.posInf => JSNum.negInf
  | JSNum.negInf, JSNum.negInf => JSNum.posInf
  | JSNum.posInf, JSNum.num q =>
    if 0 < q then JSNum.posInf else if q < 0 then JSNum.negInf else JSNum.nan
  | JSNum.negInf, JSNum.num q =>
    if 0 < q then JSNum.negInf else if q < 0 then JSNum.posInf else JSNum.nan
  | JSNum.num q, JSNum.posInf =>
    if 0 < q then JSNum.posInf else if q < 0 then JSNum.negInf else JSNum.nan
  | JSNum.num q, JSNum.negInf =>
    if 0 < q then JSNum.negInf else if q < 0 then JSNum.posInf else JSNum.nan
  | JSNum.num a, JSNum.num b => JSNum.num (a * b)

/-- JS `String.prototype.trim` (ASCII whitespace). -/
def jsTrim (s : String) : String :=
  String.mk (((s.data.dropWhile isWS).reverse.dropWhile isWS).reverse)

/-- JS `String.prototype.toUpperCase` (ASCII range). -/
def jsToUpper (s : String) : String := String.mk (s.data.map Char.toUpper)

/-- Uppercase ASCII letter `A`–`Z`. -/
def isUpperAZ (c : Char) : Bool := decide (65 ≤ c.toNat ∧ c.toNat ≤ 90)

/-- The test `/^[A-Z]{3}$/.test(s)` from `validateInput`. -/
def currencyRegexTest (s : String) : Bool :=
  s.data.length == 3 && s.data.all isUpperAZ

example : parseFloat "10" = JSNum.num 10 := by decide
example : parseFloat "5abc" = JSNum.num 5 := by decide
example : parseFloat "Infinity" = JSNum.posInf := by decide
example : parseFloat "-2.5e1" = JSNum.num (-25) := by
  have h : parseFloat "-2.5e1" = JSNum.num (-(applyExp (mantissa ['2'] ['5']) 1)) := rfl
  rw [h]
  norm_num [applyExp, mantissa, powTen, show digitsToNat ['2'] = 2 from by decide,
    show digitsToNat ['5'] = 5 from by decide]
example : parseFloat ".5" = JSNum.num (1/2) := by
  have h : parseFloat ".5" = JSNum.num (applyExp (mantissa [] ['5']) 0) := rfl
  rw [h]
  norm_num [applyExp, mantissa, show digitsToNat ['5'] = 5 from by decide,
    show digitsToNat [] = 0 from rfl]
example : parseFloat "abc" = JSNum.nan := by decide
example : parseFloat "  1e+" = JSNum.num 1 := by decide
example : currencyRegexTest "CAD" = true := by decide
example : currencyRegexTest "cad" = false := by decide
example : jsTrim "  CAD " = "CAD" := by decide

/-! ## The component under test

`validateInput` and `handleConvert` from `MainScreen` in
`src/A2_Adam_Syed/App.js`.  `validateInput` returns `some message` for the
first failing check (the source sets `errorMessage` and returns `false`) and
`none` when all checks pass (the source returns `true`). -/

/-- Message set for an invalid base currency. -/
def errBaseMsg : String :=
  "Base currency must be a 3-letter uppercase code (e.g. CAD)."

/-- Message set for an invalid destination currency. -/
def errDestMsg : String :=
  "Destination currency must be a 3-letter uppercase code (e.g. USD)."

/-- Message set for an invalid amount. -/
def errAmountMsg : String := "Amount must be a positive number."

/-- Message set on HTTP 401. -/
def errApiKeyMsg : String := "Invalid API Key. Please check the key in App.js."

/-- Generic message for a non-401 HTTP failure status. -/
def genericFailMsg (status : ℕ) : String :=
  "Request failed with status " ++ toString status ++ "."

/-- Message set when the rate for the destination currency is missing/falsy. -/
def errUnknownMsg : String := "Invalid currency code or missing exchange rate."

/-- Message set when the request throws (transport failure). -/
def errNetworkMsg : String := "A network error occurred. Please check your connection."

/-- Model of `validateInput` from `App.js`: base code, then destination code (both
only trimmed before the regex test), then the parsed amount; short-circuits
at the first failure. -/
def validateInput (baseCurrency destCurrency amount : String) : Option String :=
  if currencyRegexTest (jsTrim baseCurrency) = false then some errBaseMsg
  else if currencyRegexTest (jsTrim destCurrency) = false then some errDestMsg
  else if (jsIsNaN (parseFloat amount) || jsLeZero (parseFloat amount)) = true then
    some errAmountMsg
  else none

/-- The two JSON properties the handler reads from a parsed response body:
the `data` rate table and the `message` field. -/
structure JsonPayload where
  data : Option (List (String × JSNum))
  message : Option String
deriving DecidableEq

/-- A response body as `response.json()` delivers it to the handler.
`nullOrUnparsable` covers a body that is not valid JSON as well as the JSON
value `null` (both behave identically in the handler: on the error path
`errorData?.message` is undefined, on the success path the property access
raises and lands in the `catch`). -/
inductive ResponseBody where
  | nullOrUnparsable : ResponseBody
  | json : JsonPayload → ResponseBody
deriving DecidableEq

/-- The settled outcome of the `fetch` call: a transport-level
exception/rejection, or an HTTP response with a status and a body. -/
inductive FetchOutcome where
  | transportError : FetchOutcome
  | response : ℕ → ResponseBody → FetchOutcome
deriving DecidableEq

/-- JS object property lookup in the `data` rate table. -/
def lookupRate (key : String) : List (String × JSNum) → Option JSNum
  | [] => none
  | (k, v) :: rest => if k = key then some v else lookupRate key rest

/-- The component state written by one conversion attempt: the
`errorMessage`, `convertedAmount` and `exchangeRate` React state fields
(`""`/`null`/`null` when unset). -/
structure ConvState where
  errorMessage : String
  convertedAmount : Option JSNum
  exchangeRate : Option JSNum
deriving DecidableEq

/-- Model of `handleConvert` from `App.js`, as a function from the input fields, the
settled fetch outcome and the previous component state to the settled
state.  It first clears the error and both result fields (so the previous
state is irrelevant), validates, and then maps the outcome exactly as the
source does: transport failure → network-error message; non-2xx status →
401 message or provider `message` (falsy values fall back to the generic
status message); 2xx → truthy rate yields the conversion, otherwise the
unknown-currency message. -/
def handleConvert (baseCurrency destCurrency amount : String)
    (outcome : FetchOutcome) (prev : ConvState) : ConvState :=
  let _ := prev
  match validateInput baseCurrency destCurrency amount with
  | some msg => ⟨msg, none, none⟩
  | none =>
    let numericAmount := parseFloat amount
    let dest := jsToUpper (jsTrim destCurrency)
    match outcome with
    | FetchOutcome.transportError => ⟨errNetworkMsg, none, none⟩
    | FetchOutcome.response status body =>
      if 200 ≤ status ∧ status ≤ 299 then
        match body with
        | ResponseBody.nullOrUnparsable => ⟨errNetworkMsg, none, none⟩
        | ResponseBody.json p =>
          match p.data.bind (lookupRate dest) with
          | some r =>
            if jsTruthy r = true then ⟨"", some (jsMul numericAmount r), some r⟩
            else ⟨errUnknownMsg, none, none⟩
          | none => ⟨errUnknownMsg, none, none⟩
      else if status = 401 then ⟨errApiKeyMsg, none, none⟩
      else
        match body with
        | ResponseBody.nullOrUnparsable => ⟨genericFailMsg status, none, none⟩
        | ResponseBody.json p =>
          match p.message with
          | some m => if m = "" then ⟨genericFailMsg status, none, none⟩ else ⟨m, none, none⟩
          | none => ⟨genericFailMsg status, none, none⟩

/-- The `message` field the error path reads from a body, if any. -/
def bodyMessage : ResponseBody → Option String
  | ResponseBody.nullOrUnparsable => none
  | ResponseBody.json p => p.message

/-- Truthiness of the looked-up rate, `undefined` being falsy. -/
def truthyRate : Option JSNum → Bool
  | none => false
  | some v => jsTruthy v

example : validateInput "CAD" "USD" "10" = none := by decide
example : validateInput "cad" "USD" "10" = some errBaseMsg := by decide
example : validateInput "CAD" "usd" "10" = some errDestMsg := by decide
example : validateInput "CAD" "USD" "0" = some errAmountMsg := by decide
example : validateInput "CAD" "USD" "-3" = some errAmountMsg := by decide
example : validateInput "CAD" "USD" "abc" = some errAmountMsg := by decide
example : validateInput "CAD" "USD" "Infinity" = none := by decide
example : validateInput " CAD " "USD" "10" = none := by decide
example :
    handleConvert "CAD" "USD" "10" (FetchOutcome.response 401 ResponseBody.nullOrUnparsable)
      ⟨"", none, none⟩ = ⟨errApiKeyMsg, none, none⟩ := by decide
example :
    handleConvert "CAD" "USD" "10"
      (FetchOutcome.response 200 (ResponseBody.json ⟨some [("USD", JSNum.num 0)], none⟩))
      ⟨"", none, none⟩ = ⟨errUnknownMsg, none, none⟩ := by decide
example :
    handleConvert "CAD" "USD" "10" FetchOutcome.transportError ⟨"", none, none⟩
      = ⟨errNetworkMsg, none, none⟩ := by decide

/-! ## Claims -/

/-- C1.  For every validated input and every 2xx response whose `data`
object maps the requested destination currency to a truthy rate, the
handler settles with no error, `exchangeRate` set to that rate, and
`convertedAmount` equal to the parsed amount multiplied by the rate. -/
theorem handleConvert_success (base dest amount : String) (status : ℕ)
    (p : JsonPayload) (r : JSNum) (prev : ConvState)
    (hv : validateInput base dest amount = none)
    (hok : 200 ≤ status ∧ status ≤ 299)
    (hr : p.data.bind (lookupRate (jsToUpper (jsTrim dest))) = some r)
    (ht : jsTruthy r = true) :
    handleConvert base dest amount (FetchOutcome.response status (ResponseBody.json p)) prev
      = ⟨"", some (jsMul (parseFloat amount) r), some r⟩ := by
  simp only [handleConvert, hv]
  rw [if_pos hok]
  simp only [hr]
  rw [if_pos ht]

/-- C1 witness: the spec's concrete instance — input
`{base: "CAD", dest: "USD", amount: "10"}` against the stubbed response
`{"data": {"USD": 0.5}}` yields rate `0.5` and converted amount `5`. -/
theorem handleConvert_success_example :
    handleConvert "CAD" "USD" "10"
      (FetchOutcome.response 200 (ResponseBody.json ⟨some [("USD", JSNum.num (1/2))], none⟩))
      ⟨"", none, none⟩
      = ⟨"", some (JSNum.num 5), some (JSNum.num (1/2))⟩ := by
  have h := handleConvert_success "CAD" "USD" "10" 200
    ⟨some [("USD", JSNum.num (1/2))], none⟩ (JSNum.num (1/2)) ⟨"", none, none⟩
    (by decide) (by decide) rfl (by norm_num [jsTruthy])
  rw [h, show parseFloat "10" = JSNum.num 10 from by decide]
  show (⟨"", some (JSNum.num (10 * (1/2))), _⟩ : ConvState) = _
  norm_num

/-- C7.  For every validated input, a transport-level failure of the fetch
settles the attempt with the network-error message and no result. -/
theorem handleConvert_transport (base dest amount : String) (prev : ConvState)
    (hv : validateInput base dest amount = none) :
    handleConvert base dest amount FetchOutcome.transportError prev
      = ⟨errNetworkMsg, none, none⟩ := by
  simp only [handleConvert, hv]

/-- C7 witness at a concrete validated input. -/
theorem handleConvert_transport_example :
    handleConvert "CAD" "USD" "10" FetchOutcome.transportError ⟨"", none, none⟩
      = ⟨errNetworkMsg, none, none⟩ :=
  handleConvert_transport "CAD" "USD" "10" ⟨"", none, none⟩ (by decide)

/-- C9.  The handler is a pure function of the input fields and the fetch
outcome: the previous component state never influences the settled state
(the attempt clears it first), so two runs from any two states agree, and
re-running on the settled state changes nothing. -/
theorem handleConvert_deterministic (base dest amount : String)
    (o : FetchOutcome) (s1 s2 : ConvState) :
    handleConvert base dest amount o s1 = handleConvert base dest amount o s2
    ∧ handleConvert base dest amount o (handleConvert base dest amount o s1)
        = handleConvert base dest amount o s1 :=
  ⟨rfl, rfl⟩

/-- C2 counterexample.  The claim says both codes are upper-cased before the
regex test, so `"cad"` should pass the base check; but `validateInput` only
trims, and rejects `"cad"` with the base-currency error even though its
trimmed-and-upper-cased form matches `^[A-Z]{3}$`. -/
theorem validateInput_lowercase_counterexample :
    currencyRegexTest (jsToUpper (jsTrim "cad")) = true
    ∧ validateInput "cad" "USD" "10" = some errBaseMsg := by decide

/-- C2 (amended).  `validateInput` trims (but does not upper-case) the codes
before the `^[A-Z]{3}$` test: whenever the trimmed base code matches, the
attempt does not fail with the base-currency error, whatever the other two
fields hold; respectively, whenever the trimmed destination code matches,
the attempt does not fail with the destination-currency error. -/
theorem validateInput_trimmed_match (base dest amount : String) :
    (currencyRegexTest (jsTrim base) = true →
      validateInput base dest amount ≠ some errBaseMsg)
    ∧ (currencyRegexTest (jsTrim dest) = true →
      validateInput base dest amount ≠ some errDestMsg) := by
  refine ⟨fun hb => ?_, fun hd => ?_⟩
  · cases hd : currencyRegexTest (jsTrim dest) <;>
      cases ha : (jsIsNaN (parseFloat amount) || jsLeZero (parseFloat amount)) <;>
        simp_all [validateInput, errBaseMsg, errDestMsg, errAmountMsg]
  · cases hb : currencyRegexTest (jsTrim base) <;>
      cases ha : (jsIsNaN (parseFloat amount) || jsLeZero (parseFloat amount)) <;>
        simp_all [validateInput, errBaseMsg, errDestMsg, errAmountMsg]

/-- C2 witness: a trimmed base code passes the base check even when the
destination is invalid, and a trimmed destination code passes the
destination check even when the base is invalid. -/
theorem validateInput_trimmed_match_example :
    validateInput " CAD " "usd" "10" ≠ some errBaseMsg
    ∧ validateInput "cad" " USD " "10" ≠ some errDestMsg :=
  ⟨(validateInput_trimmed_match " CAD " "usd" "10").1 (by decide),
   (validateInput_trimmed_match "cad" " USD " "10").2 (by decide)⟩

/-- C3.  The checks run base first, then destination, then amount, and the
first failure wins: the base error is reported exactly when the trimmed base
fails the pattern (even if the destination is also invalid), the destination
error exactly when the base passed and the destination fails, and the amount
error exactly when both codes passed and the parse is `NaN` or `≤ 0`. -/
theorem validateInput_order (base dest amount : String) :
    (validateInput base dest amount = some errBaseMsg
      ↔ currencyRegexTest (jsTrim base) = false)
    ∧ (validateInput base dest amount = some errDestMsg
      ↔ currencyRegexTest (jsTrim base) = true ∧ currencyRegexTest (jsTrim dest) = false)
    ∧ (validateInput base dest amount = some errAmountMsg
      ↔ currencyRegexTest (jsTrim base) = true ∧ currencyRegexTest (jsTrim dest) = true
        ∧ (jsIsNaN (parseFloat amount) = true ∨ jsLeZero (parseFloat amount) = true)) := by
  cases hb : currencyRegexTest (jsTrim base) <;>
    cases hd : currencyRegexTest (jsTrim dest) <;>
      cases ha : (jsIsNaN (parseFloat amount) || jsLeZero (parseFloat amount)) <;>
        simp_all [validateInput, errBaseMsg, errDestMsg, errAmountMsg, Bool.or_eq_true]

/-- C4 counterexample.  The claim says `validate` succeeds only when the
amount parses to a finite number; but `"Infinity"` parses to positive
infinity and `validateInput` accepts it (`isNaN` is false and `Infinity ≤ 0`
is false). -/
theorem validateInput_infinity_counterexample :
    parseFloat "Infinity" = JSNum.posInf
    ∧ validateInput "CAD" "USD" "Infinity" = none := by decide

/-- C4 (amended).  With both currency codes passing, the amount check fails
exactly when `parseFloat` yields `NaN` or a value `≤ 0`, and succeeds
exactly when the parse is a value `> 0` — finite or not (`"Infinity"` is
accepted; the spec's finiteness requirement is not enforced). -/
theorem validateInput_amount (base dest amount : String)
    (hb : currencyRegexTest (jsTrim base) = true)
    (hd : currencyRegexTest (jsTrim dest) = true) :
    (validateInput base dest amount = some errAmountMsg
      ↔ (jsIsNaN (parseFloat amount) = true ∨ jsLeZero (parseFloat amount) = true))
    ∧ (validateInput base dest amount = none
      ↔ (jsIsNaN (parseFloat amount) = false ∧ jsLeZero (parseFloat amount) = false)) := by
  cases hn : jsIsNaN (parseFloat amount) <;> cases hl : jsLeZero (parseFloat amount) <;>
    simp_all [validateInput, errBaseMsg, errDestMsg, errAmountMsg]

/-- C4 witness: a non-numeric amount is rejected with the amount error. -/
theorem validateInput_amount_example :
    validateInput "CAD" "USD" "abc" = some errAmountMsg :=
  (validateInput_amount "CAD" "USD" "abc" (by decide) (by decide)).1.mpr
    (Or.inl (by decide))

/-- Every message `validateInput` can set is a nonempty string. -/
theorem validateInput_ne_empty (b d a m : String)
    (h : validateInput b d a = some m) : m ≠ "" := by
  unfold validateInput at h
  split at h
  · injection h with h2; subst h2; decide
  · split at h
    · injection h with h2; subst h2; decide
    · split at h
      · injection h with h2; subst h2; decide
      · cases h

/-- The generic failure message is nonempty for every status. -/
theorem genericFailMsg_ne_empty (status : ℕ) : genericFailMsg status ≠ "" := by
  intro h
  have h2 := congrArg String.length h
  simp only [genericFailMsg] at h2
  rw [String.length_append, String.length_append] at h2
  have e1 : String.length "Request failed with status " = 27 := by decide
  have e2 : String.length "." = 1 := by decide
  have e3 : String.length "" = 0 := by decide
  omega

/-- C5.  For a validated input and any 2xx response with a JSON-object body,
the attempt settles with the unknown-currency/missing-rate message exactly
when the `data` table's entry for the requested destination key is absent or
falsy — in particular a rate of `0` is treated as missing. -/
theorem handleConvert_unknown_rate (base dest amount : String) (status : ℕ)
    (p : JsonPayload) (prev : ConvState)
    (hv : validateInput base dest amount = none)
    (hok : 200 ≤ status ∧ status ≤ 299) :
    (handleConvert base dest amount
        (FetchOutcome.response status (ResponseBody.json p)) prev).errorMessage
      = errUnknownMsg
    ↔ truthyRate (p.data.bind (lookupRate (jsToUpper (jsTrim dest)))) = false := by
  simp only [handleConvert, hv]
  rw [if_pos hok]
  cases hr : p.data.bind (lookupRate (jsToUpper (jsTrim dest))) with
  | none => simp [truthyRate]
  | some r =>
    cases htr : jsTruthy r with
    | false => simp [truthyRate, htr]
    | true => simp [truthyRate, htr, show ("" : String) ≠ errUnknownMsg from by decide]

/-- C5 witness: a response mapping the destination to the rate `0` settles
with the unknown-currency message, not a conversion. -/
theorem handleConvert_unknown_rate_example :
    (handleConvert "CAD" "USD" "10"
        (FetchOutcome.response 200 (ResponseBody.json ⟨some [("USD", JSNum.num 0)], none⟩))
        ⟨"", none, none⟩).errorMessage = errUnknownMsg :=
  (handleConvert_unknown_rate "CAD" "USD" "10" 200 ⟨some [("USD", JSNum.num 0)], none⟩
    ⟨"", none, none⟩ (by decide) (by decide)).mpr (by decide)

/-- C6 counterexample.  The claim says a non-401 failure carries the
provider's message whenever the body contains one; but a body whose
`message` is the empty string (a falsy value) is present yet ignored — the
handler falls back to the generic status message. -/
theorem handleConvert_empty_message_counterexample :
    bodyMessage (ResponseBody.json ⟨none, some ""⟩) = some ""
    ∧ handleConvert "CAD" "USD" "10"
        (FetchOutcome.response 500 (ResponseBody.json ⟨none, some ""⟩)) ⟨"", none, none⟩
      = ⟨genericFailMsg 500, none, none⟩
    ∧ genericFailMsg 500 ≠ "" := by decide

/-- C6 (amended).  For a validated input and a non-2xx response: status 401
settles with the invalid-API-key message whatever the body; any other
failure status settles with the provider's `message` when the body contains
a truthy (nonempty) one, and otherwise with the generic message built from
the numeric status code. -/
theorem handleConvert_http_error (base dest amount : String) (status : ℕ)
    (body : ResponseBody) (prev : ConvState)
    (hv : validateInput base dest amount = none)
    (hnok : ¬(200 ≤ status ∧ status ≤ 299)) :
    (status = 401 →
      handleConvert base dest amount (FetchOutcome.response status body) prev
        = ⟨errApiKeyMsg, none, none⟩)
    ∧ (status ≠ 401 → ∀ m, bodyMessage body = some m → m ≠ "" →
        handleConvert base dest amount (FetchOutcome.response status body) prev
          = ⟨m, none, none⟩)
    ∧ (status ≠ 401 → (bodyMessage body = none ∨ bodyMessage body = some "") →
        handleConvert base dest amount (FetchOutcome.response status body) prev
          = ⟨genericFailMsg status, none, none⟩) := by
  simp only [handleConvert, hv]
  rw [if_neg hnok]
  refine ⟨fun h401 => by rw [if_pos h401], fun hne m hm hme => ?_, fun hne hcase => ?_⟩
  · rw [if_neg hne]
    cases body with
    | nullOrUnparsable => cases hm
    | json p =>
      simp only [bodyMessage] at hm
      simp only [hm]
      rw [if_neg hme]
  · rw [if_neg hne]
    cases body with
    | nullOrUnparsable => rfl
    | json p =>
      simp only [bodyMessage] at hcase
      cases hcase with
      | inl h => simp only [h]
      | inr h => simp [h]

/-- C6 witness: a 401 response settles with the invalid-API-key message even
though the body carries a provider message. -/
theorem handleConvert_http_error_example :
    handleConvert "CAD" "USD" "10"
        (FetchOutcome.response 401 (ResponseBody.json ⟨none, some "quota exceeded"⟩))
        ⟨"", none, none⟩ = ⟨errApiKeyMsg, none, none⟩ :=
  (handleConvert_http_error "CAD" "USD" "10" 401
    (ResponseBody.json ⟨none, some "quota exceeded"⟩) ⟨"", none, none⟩
    (by decide) (by decide)).1 rfl

/-- The attempt settled with a conversion result and no error. -/
def hasResult (s : ConvState) : Prop :=
  s.errorMessage = "" ∧ s.convertedAmount ≠ none ∧ s.exchangeRate ≠ none

/-- The attempt settled with an error and no result fields. -/
def hasError (s : ConvState) : Prop :=
  s.errorMessage ≠ "" ∧ s.convertedAmount = none ∧ s.exchangeRate = none

/-- C8.  Every settled attempt yields exactly one of result or error: the
handler clears all three fields first and every branch then either sets both
result fields (leaving the message empty) or sets a nonempty message
(leaving the result fields `null`). -/
theorem handleConvert_exclusive (base dest amount : String)
    (o : FetchOutcome) (prev : ConvState) :
    hasResult (handleConvert base dest amount o prev)
    ∨ hasError (handleConvert base dest amount o prev) := by
  cases hvv : validateInput base dest amount with
  | some msg =>
    simp only [handleConvert, hvv]
    exact Or.inr ⟨validateInput_ne_empty base dest amount msg hvv, rfl, rfl⟩
  | none =>
    cases o with
    | transportError =>
      simp only [handleConvert, hvv]
      exact Or.inr ⟨show errNetworkMsg ≠ "" from by decide, rfl, rfl⟩
    | response status body =>
      simp only [handleConvert, hvv]
      by_cases hok : 200 ≤ status ∧ status ≤ 299
      · rw [if_pos hok]
        cases body with
        | nullOrUnparsable =>
          exact Or.inr ⟨show errNetworkMsg ≠ "" from by decide, rfl, rfl⟩
        | json p =>
          cases hr : p.data.bind (lookupRate (jsToUpper (jsTrim dest))) with
          | none =>
            simp only [hr]
            exact Or.inr ⟨show errUnknownMsg ≠ "" from by decide, rfl, rfl⟩
          | some r =>
            simp only [hr]
            cases htr : jsTruthy r with
            | true =>
              exact Or.inl ⟨rfl,
                show some (jsMul (parseFloat amount) r) ≠ none from by simp,
                show some r ≠ none from by simp⟩
            | false =>
              exact Or.inr ⟨show errUnknownMsg ≠ "" from by decide, rfl, rfl⟩
      · rw [if_neg hok]
        by_cases h401 : status = 401
        · rw [if_pos h401]
          exact Or.inr ⟨show errApiKeyMsg ≠ "" from by decide, rfl, rfl⟩
        · rw [if_neg h401]
          cases body with
          | nullOrUnparsable => exact Or.inr ⟨genericFailMsg_ne_empty status, rfl, rfl⟩
          | json p =>
            cases hm : p.message with
            | none =>
              simp only [hm]
              exact Or.inr ⟨genericFailMsg_ne_empty status, rfl, rfl⟩
            | some m =>
              by_cases hme : m = ""
              · subst hme
                simp only [hm]
                exact Or.inr ⟨genericFailMsg_ne_empty status, rfl, rfl⟩
              · simp only [hm, if_neg hme]
                exact Or.inr ⟨hme, rfl, rfl⟩

/-- A character that could extend a decimal literal (digit, decimal point,
or exponent marker); everything else ends the numeric prefix. -/
def continuesNumber (c : Char) : Bool :=
  isDigit c || c == '.' || c == 'e' || c == 'E'

/-- A digit differs from any non-digit character. -/
theorem digit_ne (c d : Char) (hc : isDigit c = true) (hd : isDigit d = false) :
    c ≠ d := by
  intro h
  rw [h, hd] at hc
  exact Bool.false_ne_true hc

/-- Digits are not whitespace. -/
theorem digit_not_ws (c : Char) (hc : isDigit c = true) : isWS c = false := by
  simp only [isDigit, decide_eq_true_eq] at hc
  simp only [isWS, decide_eq_false_iff_not]
  omega

/-- The digit scanner consumes exactly a digit prefix when the remainder
starts with a non-digit. -/
theorem spanDigits_append (ds t : List Char) (hds : ds.all isDigit = true)
    (ht : ∀ c, t.head? = some c → isDigit c = false) :
    spanDigits (ds ++ t) = (ds, t) := by
  induction ds with
  | nil =>
    cases t with
    | nil => rfl
    | cons c t' => simp [spanDigits, ht c rfl]
  | cons c cs ih =>
    rw [List.all_cons, Bool.and_eq_true] at hds
    simp [spanDigits, hds.1, ih hds.2]

/-- Applying `parseFloat` to a nonempty digit string followed by characters that
cannot extend a number yields exactly the value of the digit prefix. -/
theorem parseFloat_digitHead (ds t : List Char) (hne : ds ≠ [])
    (hds : ds.all isDigit = true)
    (ht : ∀ c, t.head? = some c → continuesNumber c = false) :
    parseFloat (String.mk (ds ++ t)) = JSNum.num (digitsToNat ds) := by
  have htd : ∀ c, t.head? = some c → isDigit c = false := by
    intro c hc
    have h2 := ht c hc
    simp only [continuesNumber, Bool.or_eq_false_iff] at h2
    exact h2.1.1.1
  have hsp : spanDigits (ds ++ t) = (ds, t) := spanDigits_append ds t hds htd
  cases ds with
  | nil => exact absurd rfl hne
  | cons c0 cs =>
    have hc0 : isDigit c0 = true := by
      rw [List.all_cons, Bool.and_eq_true] at hds
      exact hds.1
    have hws : isWS c0 = false := digit_not_ws c0 hc0
    simp only [List.cons_append] at hsp ⊢
    have e1 : List.dropWhile isWS (c0 :: (cs ++ t)) = c0 :: (cs ++ t) := by
      simp [List.dropWhile, hws]
    have e2 : stripSign (c0 :: (cs ++ t)) = (false, c0 :: (cs ++ t)) := by
      have h1 : c0 ≠ '+' := digit_ne c0 '+' hc0 (by decide)
      have h2 : c0 ≠ '-' := digit_ne c0 '-' hc0 (by decide)
      simp [stripSign, h1, h2]
    have e3 : startsWithInfinity (c0 :: (cs ++ t)) = false := by
      have h1 : ('I' == c0) = false :=
        beq_eq_false_iff_ne.mpr (Ne.symm (digit_ne c0 'I' hc0 (by decide)))
      simp [startsWithInfinity, matchChars, h1]
    have e4 : parseDecimal (c0 :: (cs ++ t)) = some ((digitsToNat (c0 :: cs) : ℚ)) := by
      unfold parseDecimal
      rw [hsp]
      cases t with
      | nil => simp [parseAfterInt]
      | cons c1 t1 =>
        have hcn := ht c1 rfl
        simp only [continuesNumber, Bool.or_eq_false_iff] at hcn
        obtain ⟨⟨⟨_, hdot⟩, he⟩, hE⟩ := hcn
        rw [beq_eq_false_iff_ne] at hdot he hE
        have hexp : parseExponentPart (c1 :: t1) = 0 := by
          simp [parseExponentPart, he, hE]
        simp only [parseAfterInt, if_neg hdot, hexp]
        simp [show applyExp (digitsToNat (c0 :: cs) : ℚ) 0
                = (digitsToNat (c0 :: cs) : ℚ) from rfl]
    simp only [parseFloat,
      show (String.mk (c0 :: (cs ++ t))).data = c0 :: (cs ++ t) from rfl,
      e1, e2, e3, e4]
    simp

/-- C10.  An amount string made of a nonempty digit prefix of positive value
followed by characters that cannot extend a number (e.g. `"5abc"`) is not
purely numeric, yet `parseFloat` yields the prefix value, `validateInput`
accepts the input, and a successful conversion multiplies that prefix value
by the rate. -/
theorem parseFloat_trailing_junk (ds t : List Char) (r : ℚ) (prev : ConvState)
    (hne : ds ≠ []) (hds : ds.all isDigit = true)
    (ht : ∀ c, t.head? = some c → continuesNumber c = false)
    (hpos : 0 < digitsToNat ds) (hr : r ≠ 0) :
    parseFloat (String.mk (ds ++ t)) = JSNum.num (digitsToNat ds)
    ∧ validateInput "CAD" "USD" (String.mk (ds ++ t)) = none
    ∧ handleConvert "CAD" "USD" (String.mk (ds ++ t))
        (FetchOutcome.response 200
          (ResponseBody.json ⟨some [("USD", JSNum.num r)], none⟩)) prev
      = ⟨"", some (JSNum.num ((digitsToNat ds : ℚ) * r)), some (JSNum.num r)⟩ := by
  have hp := parseFloat_digitHead ds t hne hds ht
  have hval : validateInput "CAD" "USD" (String.mk (ds ++ t)) = none := by
    unfold validateInput
    rw [hp, show currencyRegexTest (jsTrim "CAD") = true from by decide,
      show currencyRegexTest (jsTrim "USD") = true from by decide]
    have hle : jsLeZero (JSNum.num (digitsToNat ds : ℚ)) = false := by
      simp only [jsLeZero, decide_eq_false_iff_not, not_le]
      exact_mod_cast hpos
    simp [jsIsNaN, hle]
  refine ⟨hp, hval, ?_⟩
  simp only [handleConvert, hval]
  rw [if_pos (show (200 : ℕ) ≤ 200 ∧ (200 : ℕ) ≤ 299 from by omega)]
  have hl : (some [("USD", JSNum.num r)] : Option (List (String × JSNum))).bind
      (lookupRate (jsToUpper (jsTrim "USD"))) = some (JSNum.num r) := by
    rw [show jsToUpper (jsTrim "USD") = "USD" from by decide]
    simp [lookupRate]
  simp only [hl]
  rw [if_pos (show jsTruthy (JSNum.num r) = true from by simp [jsTruthy, hr])]
  rw [hp]
  rfl

/-- C10 witness: `"5abc"` validates and converts as the amount `5`. -/
theorem parseFloat_trailing_junk_example :
    validateInput "CAD" "USD" "5abc" = none
    ∧ handleConvert "CAD" "USD" "5abc"
        (FetchOutcome.response 200
          (ResponseBody.json ⟨some [("USD", JSNum.num 1)], none⟩)) ⟨"", none, none⟩
      = ⟨"", some (JSNum.num 5), some (JSNum.num 1)⟩ := by
  have h := parseFloat_trailing_junk ['5'] ['a', 'b', 'c'] 1 ⟨"", none, none⟩
    (by decide) (by decide) (by decide) (by decide) (by decide)
  have hs : ("5abc" : String) = String.mk (['5'] ++ ['a', 'b', 'c']) := by decide
  refine ⟨by rw [hs]; exact h.2.1, ?_⟩
  rw [hs, h.2.2]
  have : ((digitsToNat ['5'] : ℚ)) * 1 = 5 := by
    rw [show digitsToNat ['5'] = 5 from by decide]
    norm_num
  rw [this]
